import Mathlib

/-!
Verification development for the offline-resilient session and capture
pipeline of the insightful-clone desktop client.

The definitions below are shallow embeddings of the TypeScript source:

* `OfflineQueueContext` (the Durable Action Queue backed by a Dexie
  IndexedDB table `queuedActions`): `addToQueue`, `processQueue`,
  `clearQueue`, and the `orderBy` snapshot taken at the start of a drain.
* `Dashboard.tsx`: `loadInitialData`, `startTracking`, `stopTracking`,
  `handleLogout`, and the `screenshot:trigger` listener installed by
  `setupScreenshotListener`.
* `electron-main/main.ts`: the `screenshot:start-schedule` and
  `screenshot:stop-schedule` IPC handlers operating on the
  `screenshotInterval` timer handle.

Remote calls (the Remote Gateway) and the local storage backend are
external collaborators; their outcomes enter the model as explicit
oracle parameters (`Except Unit _` results, an `apply` oracle for the
drain loop, a `storeOk` flag for IndexedDB writes), mirroring how the
source observes them only through resolved or rejected promises.
-/

namespace Insightful

/-- The `type` discriminator of a `QueuedAction` in OfflineQueueContext. -/
inductive ActionType where
  | screenshot_upload
  | time_entry_create
  | time_entry_update
deriving DecidableEq, Repr

/-- Payload of a `screenshot_upload` action, as assembled by the
Dashboard screenshot listener before calling `addToQueue`. -/
structure ScreenshotPayload where
  imageData : String
  employeeId : Nat
  timeEntryId : Nat
  permission : Bool
  ip : Option String
  mac : Option String
deriving DecidableEq, Repr

/-- The opaque `data` field of a queued action. -/
inductive ActionData where
  | screenshot (p : ScreenshotPayload)
  | timeEntryCreate (body : String)
  | timeEntryUpdate (timeEntryId : Nat) (body : String)
deriving DecidableEq, Repr

/-- A record of the Dexie table `queuedActions` (`++id` primary key,
`timestamp` from `Date.now()`, `retryCount`, `maxRetries`). -/
structure QueuedAction where
  id : Nat
  type : ActionType
  data : ActionData
  timestamp : Nat
  retryCount : Nat
  maxRetries : Nat
deriving DecidableEq, Repr

/-- State owned by the OfflineQueueProvider: the durable store `db`
(in insertion order), the next Dexie auto-increment key, a monotone
clock supplying `Date.now()` values, and the `queueSize` React state
shown in the UI (refreshed by `updateQueueSize`). -/
structure QState where
  db : List QueuedAction
  nextId : Nat
  clock : Nat
  queueSize : Nat
deriving DecidableEq, Repr

/-- What the caller of `addToQueue` observes: whether the returned
promise resolved (rather than rejected), and whether an error was
written to the console. -/
structure EnqueueOutcome where
  resolved : Bool
  errorLogged : Bool
deriving DecidableEq, Repr

/-- Model of `addToQueue` from OfflineQueueContext.  On a successful store write
it persists the action with `retryCount := 0` and a fresh timestamp and
refreshes `queueSize`; a failing store write (`storeOk = false`) is
caught inside the function, logged with `console.error`, and the
promise still resolves. -/
def addToQueue (storeOk : Bool) (ty : ActionType) (d : ActionData) (maxRetries : Nat)
    (s : QState) : QState × EnqueueOutcome :=
  if storeOk then
    let a : QueuedAction := ⟨s.nextId, ty, d, s.clock, 0, maxRetries⟩
    let db' := s.db ++ [a]
    (⟨db', s.nextId + 1, s.clock + 1, db'.length⟩, ⟨true, false⟩)
  else
    (s, ⟨true, true⟩)

/-- Net effect of one iteration of the drain loop on one snapshot
action: success deletes it, failure either deletes it (retry budget
exhausted) or keeps it with the incremented retry count. -/
def drainAction (apply : QueuedAction → Bool) (a : QueuedAction) : Option QueuedAction :=
  if apply a then none
  else if a.maxRetries ≤ a.retryCount + 1 then none
  else some { a with retryCount := a.retryCount + 1 }

/-- One iteration of the `for` loop in `processQueue`, acting on the
current contents of the keyed store: `db.queuedActions.delete(id)` on
success or exhaustion, `db.queuedActions.update(id, ...)` otherwise. -/
def processAction (apply : QueuedAction → Bool) (db : List QueuedAction)
    (a : QueuedAction) : List QueuedAction :=
  if apply a then db.filter (fun b => b.id ≠ a.id)
  else if a.maxRetries ≤ a.retryCount + 1 then db.filter (fun b => b.id ≠ a.id)
  else db.map (fun b => if b.id = a.id then { b with retryCount := a.retryCount + 1 } else b)

/-- Insertion step of the stable sort modelling Dexie `orderBy`. -/
def insertByTimestamp (a : QueuedAction) : List QueuedAction → List QueuedAction
  | [] => [a]
  | b :: t => if a.timestamp ≤ b.timestamp then a :: b :: t else b :: insertByTimestamp a t

/-- Model of `db.queuedActions.orderBy(timestamp).toArray()`: the snapshot a
drain iterates over, sorted ascending by timestamp (stable, so ties
keep primary-key order). -/
def orderByTimestamp : List QueuedAction → List QueuedAction
  | [] => []
  | a :: t => insertByTimestamp a (orderByTimestamp t)

/-- Console-visible outcome of a drain iteration for one action. -/
inductive DrainEv where
  | processed (a : QueuedAction)
  | droppedMax (a : QueuedAction)
  | retried (a : QueuedAction)
deriving DecidableEq, Repr

/-- The event `processQueue` reports for one snapshot action. -/
def drainEvent (apply : QueuedAction → Bool) (a : QueuedAction) : DrainEv :=
  if apply a then .processed a
  else if a.maxRetries ≤ a.retryCount + 1 then .droppedMax a
  else .retried a

/-- The drain `for` loop: fold the per-action store mutation over the
snapshot taken at entry. -/
def drainLoop (apply : QueuedAction → Bool) (snapshot db : List QueuedAction) :
    List QueuedAction :=
  snapshot.foldl (processAction apply) db

/-- Model of `processQueue` from OfflineQueueContext.  Returns the new provider
state, the list of actions attempted against the Remote Gateway (the
snapshot; `processQueuedAction` is called for every snapshot element),
and the per-action events.  The only early return is the offline
guard `if (!isOnline) return` at the top of the function. -/
def processQueue (isOnline : Bool) (apply : QueuedAction → Bool) (s : QState) :
    QState × List QueuedAction × List DrainEv :=
  if isOnline = false then (s, [], [])
  else
    let snapshot := orderByTimestamp s.db
    let db' := drainLoop apply snapshot s.db
    (⟨db', s.nextId, s.clock, db'.length⟩, snapshot, snapshot.map (drainEvent apply))

/-- Model of `clearQueue`: unconditional administrative deletion of all stored
actions. -/
def clearQueue (s : QState) : QState := ⟨[], s.nextId, s.clock, 0⟩

/-- One externally triggered operation against the queue. -/
inductive QOp where
  | enq (storeOk : Bool) (ty : ActionType) (d : ActionData) (maxRetries : Nat)
  | drain (isOnline : Bool) (apply : QueuedAction → Bool)

/-- Apply one operation to the provider state. -/
def stepOp (s : QState) : QOp → QState
  | .enq ok ty d mr => (addToQueue ok ty d mr s).1
  | .drain online apply => (processQueue online apply s).1

/-- Run a sequence of operations. -/
def runOps (s : QState) (ops : List QOp) : QState := ops.foldl stepOp s

/-- Initial provider state: empty table, Dexie keys starting at 1. -/
def initQ : QState := ⟨[], 1, 0, 0⟩

/-- Well-formedness of a provider state: retry counts within budget,
store in ascending timestamp order, distinct primary keys bounded by
the auto-increment counter, timestamps below the clock, and the
displayed `queueSize` equal to the store count. -/
def WFq (s : QState) : Prop :=
  (∀ a ∈ s.db, a.retryCount ≤ a.maxRetries) ∧
  s.db.Pairwise (fun a b => a.timestamp ≤ b.timestamp) ∧
  (s.db.map QueuedAction.id).Nodup ∧
  (∀ a ∈ s.db, a.id < s.nextId) ∧
  (∀ a ∈ s.db, a.timestamp < s.clock) ∧
  s.queueSize = s.db.length

/-- The snapshot of an already sorted store is the store itself. -/
theorem orderByTimestamp_eq_self :
    ∀ {l : List QueuedAction}, l.Pairwise (fun a b => a.timestamp ≤ b.timestamp) →
      orderByTimestamp l = l := by
  intro l h
  induction l with
  | nil => rfl
  | cons a t ih =>
    rw [List.pairwise_cons] at h
    rw [orderByTimestamp, ih h.2]
    cases t with
    | nil => rfl
    | cons b t' =>
      rw [insertByTimestamp, if_pos (h.1 b (List.mem_cons_self b t'))]

/-- Deleting an id that occurs nowhere in the store is a no-op. -/
theorem filter_ne_id_of_forall {i : Nat} {l : List QueuedAction}
    (h : ∀ b ∈ l, b.id ≠ i) : l.filter (fun b => b.id ≠ i) = l :=
  List.filter_eq_self.mpr (fun b hb => by simpa using h b hb)

/-- Updating an id that occurs nowhere in the store is a no-op. -/
theorem map_update_of_forall {i : Nat} {g : QueuedAction → QueuedAction}
    {l : List QueuedAction} (h : ∀ b ∈ l, b.id ≠ i) :
    l.map (fun b => if b.id = i then g b else b) = l := by
  rw [List.map_congr_left (fun b hb => if_neg (h b hb))]
  simp

/-- The drain loop over a snapshot that coincides with the suffix of the
store, with distinct primary keys, has exactly the per-action net
effect `drainAction` on that suffix and leaves the prefix alone. -/
theorem drainLoop_eq_filterMap (apply : QueuedAction → Bool) :
    ∀ (l pre : List QueuedAction),
      (l.map QueuedAction.id).Nodup →
      (∀ b ∈ pre, ∀ a ∈ l, b.id ≠ a.id) →
      drainLoop apply l (pre ++ l) = pre ++ l.filterMap (drainAction apply) := by
  intro l
  induction l with
  | nil => intro pre _ _; simp [drainLoop]
  | cons a t ih =>
    intro pre hnd hpre
    rw [List.map_cons, List.nodup_cons] at hnd
    obtain ⟨hida, hndt⟩ := hnd
    have hat : ∀ x ∈ t, x.id ≠ a.id := by
      intro x hx heq
      exact hida (heq ▸ List.mem_map_of_mem QueuedAction.id hx)
    have hpret : ∀ b ∈ pre, ∀ x ∈ t, b.id ≠ x.id := fun b hb x hx =>
      hpre b hb x (List.mem_cons_of_mem a hx)
    have hprea : ∀ b ∈ pre, b.id ≠ a.id := fun b hb =>
      hpre b hb a (List.mem_cons_self a t)
    have hdel : (pre ++ a :: t).filter (fun b => b.id ≠ a.id) = pre ++ t := by
      rw [List.filter_append, filter_ne_id_of_forall hprea,
        List.filter_cons_of_neg (by simp), filter_ne_id_of_forall hat]
    by_cases h1 : apply a = true
    · have hstep : processAction apply (pre ++ a :: t) a = pre ++ t := by
        rw [processAction, if_pos h1, hdel]
      have hloop : drainLoop apply (a :: t) (pre ++ a :: t) =
          drainLoop apply t (pre ++ t) := by
        simp only [drainLoop, List.foldl_cons, hstep]
      rw [hloop, ih pre hndt hpret, List.filterMap_cons,
        drainAction, if_pos h1]
    · have h1' : apply a = false := by simpa using h1
      by_cases h2 : a.maxRetries ≤ a.retryCount + 1
      · have hstep : processAction apply (pre ++ a :: t) a = pre ++ t := by
          rw [processAction, if_neg (by simp [h1']), if_pos h2, hdel]
        have hloop : drainLoop apply (a :: t) (pre ++ a :: t) =
            drainLoop apply t (pre ++ t) := by
          simp only [drainLoop, List.foldl_cons, hstep]
        rw [hloop, ih pre hndt hpret, List.filterMap_cons,
          drainAction, if_neg (by simp [h1']), if_pos h2]
      · have hstep : processAction apply (pre ++ a :: t) a =
            (pre ++ [{ a with retryCount := a.retryCount + 1 }]) ++ t := by
          rw [processAction, if_neg (by simp [h1']), if_neg h2, List.map_append,
            map_update_of_forall hprea, List.map_cons, if_pos rfl,
            map_update_of_forall hat]
          simp
        have hloop : drainLoop apply (a :: t) (pre ++ a :: t) =
            drainLoop apply t ((pre ++ [{ a with retryCount := a.retryCount + 1 }]) ++ t) := by
          simp only [drainLoop, List.foldl_cons, hstep]
        have hpre' : ∀ b ∈ pre ++ [{ a with retryCount := a.retryCount + 1 }],
            ∀ x ∈ t, b.id ≠ x.id := by
          intro b hb x hx
          rcases List.mem_append.mp hb with hb | hb
          · exact hpret b hb x hx
          · have hba : b.id = a.id := by
              rcases List.mem_singleton.mp hb with rfl
              rfl
            rw [hba]
            exact fun hax => hat x hx hax.symm
        have hih := ih (pre ++ [{ a with retryCount := a.retryCount + 1 }]) hndt hpre'
        rw [hloop, hih, List.filterMap_cons, drainAction, if_neg (by simp [h1']),
          if_neg h2, List.append_assoc, List.singleton_append]

/-- On a well-formed store an online drain is, in sum, `filterMap` of
the per-action net effect over the whole store. -/
theorem processQueue_db_eq (apply : QueuedAction → Bool) (s : QState)
    (hsort : s.db.Pairwise (fun a b => a.timestamp ≤ b.timestamp))
    (hnd : (s.db.map QueuedAction.id).Nodup) :
    (processQueue true apply s).1.db = s.db.filterMap (drainAction apply) := by
  have hsnap : orderByTimestamp s.db = s.db := orderByTimestamp_eq_self hsort
  have h := drainLoop_eq_filterMap apply s.db [] hnd (by intro b hb; cases hb)
  simp only [List.nil_append] at h
  simp [processQueue, hsnap, h]

/-- An action kept by a drain iteration was a failure with remaining
retry budget, and is stored back with the incremented count. -/
theorem drainAction_eq_some {apply : QueuedAction → Bool} {a b : QueuedAction}
    (h : drainAction apply a = some b) :
    apply a = false ∧ a.retryCount + 1 < a.maxRetries ∧
      b = { a with retryCount := a.retryCount + 1 } := by
  unfold drainAction at h
  split at h
  · exact absurd h (by simp)
  · split at h
    · exact absurd h (by simp)
    · rename_i h1 h2
      exact ⟨by simpa using h1, by omega, (Option.some.inj h).symm⟩

/-- An action deleted by a drain iteration was either applied
successfully or had exhausted its retry budget. -/
theorem drainAction_eq_none {apply : QueuedAction → Bool} {a : QueuedAction}
    (h : drainAction apply a = none) :
    apply a = true ∨ a.maxRetries ≤ a.retryCount + 1 := by
  unfold drainAction at h
  split at h
  · rename_i h1; exact Or.inl h1
  · split at h
    · rename_i h2; exact Or.inr h2
    · exact absurd h (by simp)

/-- Enqueue preserves well-formedness of the provider state. -/
theorem WFq_addToQueue (ok : Bool) (ty : ActionType) (d : ActionData) (mr : Nat)
    {s : QState} (h : WFq s) : WFq (addToQueue ok ty d mr s).1 := by
  obtain ⟨hrb, hsort, hnd, hid, hts, hsz⟩ := h
  cases ok with
  | false => exact ⟨hrb, hsort, hnd, hid, hts, hsz⟩
  | true =>
    refine ⟨?_, ?_, ?_, ?_, ?_, rfl⟩
    · intro x hx
      rcases List.mem_append.mp hx with hx | hx
      · exact hrb x hx
      · rcases List.mem_singleton.mp hx with rfl
        exact Nat.zero_le _
    · refine List.pairwise_append.mpr ⟨hsort, List.pairwise_singleton _ _, ?_⟩
      intro x hx y hy
      rcases List.mem_singleton.mp hy with rfl
      exact Nat.le_of_lt (hts x hx)
    · show (List.map QueuedAction.id (s.db ++ [⟨s.nextId, ty, d, s.clock, 0, mr⟩])).Nodup
      simp only [List.map_append, List.map_cons, List.map_nil]
      rw [List.nodup_append]
      refine ⟨hnd, List.nodup_singleton _, ?_⟩
      intro i hi hi2
      obtain ⟨y, hy, rfl⟩ := List.mem_map.mp hi
      rcases List.mem_singleton.mp hi2 with hcontra
      exact absurd hcontra (Nat.ne_of_lt (hid y hy))
    · intro x hx
      rcases List.mem_append.mp hx with hx | hx
      · exact Nat.lt_trans (hid x hx) (Nat.lt_succ_self _)
      · rcases List.mem_singleton.mp hx with rfl
        exact Nat.lt_succ_self _
    · intro x hx
      rcases List.mem_append.mp hx with hx | hx
      · exact Nat.lt_trans (hts x hx) (Nat.lt_succ_self _)
      · rcases List.mem_singleton.mp hx with rfl
        exact Nat.lt_succ_self _

/-- Drain preserves well-formedness of the provider state. -/
theorem WFq_processQueue (online : Bool) (apply : QueuedAction → Bool) {s : QState}
    (h : WFq s) : WFq (processQueue online apply s).1 := by
  obtain ⟨hrb, hsort, hnd, hid, hts, hsz⟩ := h
  cases online with
  | false => exact ⟨hrb, hsort, hnd, hid, hts, hsz⟩
  | true =>
    have hdb := processQueue_db_eq apply s hsort hnd
    refine ⟨?_, ?_, ?_, ?_, ?_, rfl⟩
    · intro b hb
      rw [hdb] at hb
      obtain ⟨a, ha, hda⟩ := List.mem_filterMap.mp hb
      obtain ⟨-, hlt, rfl⟩ := drainAction_eq_some hda
      exact Nat.le_of_lt hlt
    · rw [hdb]
      refine hsort.filterMap (drainAction apply) ?_
      intro a a' hle b hb b' hb'
      rw [Option.mem_def] at hb hb'
      obtain ⟨-, -, rfl⟩ := drainAction_eq_some hb
      obtain ⟨-, -, rfl⟩ := drainAction_eq_some hb'
      exact hle
    · rw [hdb]
      have hnd' : List.Pairwise (fun a b => a.id ≠ b.id) s.db := List.pairwise_map.mp hnd
      have hp : List.Pairwise (fun a b => a.id ≠ b.id)
          (List.filterMap (drainAction apply) s.db) := by
        refine hnd'.filterMap (drainAction apply) ?_
        intro a a' hne b hb b' hb'
        rw [Option.mem_def] at hb hb'
        obtain ⟨-, -, rfl⟩ := drainAction_eq_some hb
        obtain ⟨-, -, rfl⟩ := drainAction_eq_some hb'
        exact hne
      exact List.pairwise_map.mpr hp
    · intro b hb
      rw [hdb] at hb
      obtain ⟨a, ha, hda⟩ := List.mem_filterMap.mp hb
      obtain ⟨-, -, rfl⟩ := drainAction_eq_some hda
      exact hid a ha
    · intro b hb
      rw [hdb] at hb
      obtain ⟨a, ha, hda⟩ := List.mem_filterMap.mp hb
      obtain ⟨-, -, rfl⟩ := drainAction_eq_some hda
      exact hts a ha

/-- Every single operation preserves well-formedness. -/
theorem WFq_stepOp {s : QState} (h : WFq s) : ∀ o : QOp, WFq (stepOp s o)
  | .enq ok ty d mr => WFq_addToQueue ok ty d mr h
  | .drain online apply => WFq_processQueue online apply h

/-- The initial state is well-formed. -/
theorem WFq_initQ : WFq initQ := by
  refine ⟨?_, ?_, ?_, ?_, ?_, rfl⟩ <;> simp [initQ]

/-- Well-formedness is an inductive invariant of all operation
sequences. -/
theorem WFq_runOps (ops : List QOp) : ∀ {s : QState}, WFq s → WFq (runOps s ops) := by
  induction ops with
  | nil => intro s h; exact h
  | cons o t ih => intro s h; exact ih (WFq_stepOp h o)

/-- If a stored action is absent (by primary key) after a drain on a
well-formed state, the drain either applied it successfully or its
retry budget was exhausted. -/
theorem drain_removal_cause {s : QState} (h : WFq s) (apply : QueuedAction → Bool)
    {a : QueuedAction} (ha : a ∈ s.db)
    (hrem : ∀ b ∈ (processQueue true apply s).1.db, b.id ≠ a.id) :
    apply a = true ∨ a.maxRetries ≤ a.retryCount + 1 := by
  obtain ⟨-, hsort, hnd, -, -, -⟩ := h
  have hdb := processQueue_db_eq apply s hsort hnd
  rcases hna : drainAction apply a with - | b
  · exact drainAction_eq_none hna
  · exfalso
    have hb : b ∈ (processQueue true apply s).1.db := by
      rw [hdb]; exact List.mem_filterMap.mpr ⟨a, ha, hna⟩
    have hne := hrem b hb
    obtain ⟨-, -, rfl⟩ := drainAction_eq_some hna
    exact hne rfl

/-- Enqueue never removes a stored action. -/
theorem addToQueue_preserves (ok : Bool) (ty : ActionType) (d : ActionData) (mr : Nat)
    {s : QState} {a : QueuedAction} (ha : a ∈ s.db) :
    a ∈ (addToQueue ok ty d mr s).1.db := by
  cases ok with
  | false => exact ha
  | true => exact List.mem_append_left _ ha

/-- C1: over every sequence of enqueue and drain operations on the
Durable Action Queue starting from the initial state: every stored
action has `retryCount ≤ maxRetries`; the reported `size` counts
exactly the currently stored actions (so it never counts an already
deleted one); an action that a drain removes (no stored record with
its primary key remains) was removed only because the remote
application succeeded or its retry budget was exhausted; and an
enqueue never removes a stored action. -/
theorem queue_invariants_C1 (ops : List QOp) :
    (∀ a ∈ (runOps initQ ops).db, a.retryCount ≤ a.maxRetries) ∧
    (runOps initQ ops).queueSize = (runOps initQ ops).db.length ∧
    (∀ (apply : QueuedAction → Bool) (a : QueuedAction),
      a ∈ (runOps initQ ops).db →
      (∀ b ∈ (processQueue true apply (runOps initQ ops)).1.db, b.id ≠ a.id) →
      apply a = true ∨ a.maxRetries ≤ a.retryCount + 1) ∧
    (∀ (ok : Bool) (ty : ActionType) (d : ActionData) (mr : Nat) (a : QueuedAction),
      a ∈ (runOps initQ ops).db → a ∈ (addToQueue ok ty d mr (runOps initQ ops)).1.db) := by
  have h := WFq_runOps ops WFq_initQ
  exact ⟨h.1, h.2.2.2.2.2,
    fun apply a ha hrem => drain_removal_cause h apply ha hrem,
    fun ok ty d mr a ha => addToQueue_preserves ok ty d mr ha⟩

/-- Witness for C1 at a concrete operation sequence: one enqueued
action with `maxRetries = 1` that disappears in a failing drain is
removed precisely by retry exhaustion. -/
theorem queue_invariants_C1_witness :
    (⟨1, ActionType.time_entry_create, ActionData.timeEntryCreate "x", 0, 0, 1⟩ : QueuedAction) ∈
      (runOps initQ [QOp.enq true ActionType.time_entry_create (ActionData.timeEntryCreate "x") 1]).db ∧
    ((fun _ => false : QueuedAction → Bool)
        (⟨1, ActionType.time_entry_create, ActionData.timeEntryCreate "x", 0, 0, 1⟩ : QueuedAction) = true ∨
      (1 : Nat) ≤ 0 + 1) :=
  ⟨by decide,
    (queue_invariants_C1 [QOp.enq true ActionType.time_entry_create (ActionData.timeEntryCreate "x") 1]).2.2.1
      (fun _ => false) ⟨1, ActionType.time_entry_create, ActionData.timeEntryCreate "x", 0, 0, 1⟩
      (by decide) (by decide)⟩

/-- A failing drain over a one-action store with remaining retry
budget keeps the action with the incremented count. -/
theorem processQueue_single_keep (a : QueuedAction) (n c q : Nat)
    (hlt : a.retryCount + 1 < a.maxRetries) :
    processQueue true (fun _ => false) ⟨[a], n, c, q⟩ =
      (⟨[{ a with retryCount := a.retryCount + 1 }], n, c, 1⟩, [a], [DrainEv.retried a]) := by
  have hsnap : orderByTimestamp [a] = [a] := rfl
  simp [processQueue, hsnap, drainLoop, processAction, drainEvent, Nat.not_le.mpr hlt]

/-- A failing drain over a one-action store with exhausted retry
budget deletes the action and reports it dropped. -/
theorem processQueue_single_drop (a : QueuedAction) (n c q : Nat)
    (hge : a.maxRetries ≤ a.retryCount + 1) :
    processQueue true (fun _ => false) ⟨[a], n, c, q⟩ =
      (⟨[], n, c, 0⟩, [a], [DrainEv.droppedMax a]) := by
  have hsnap : orderByTimestamp [a] = [a] := rfl
  simp [processQueue, hsnap, drainLoop, processAction, drainEvent, hge]

/-- C2: an action with `retryCount = 0` and `maxRetries = 3` that
fails on three consecutive drain cycles survives the first two with
incremented retry counts, is deleted from the store immediately by the
third failed attempt (reported as permanently dropped), and is not
attempted in a fourth drain cycle (the fourth snapshot is empty). -/
theorem retry_exhaustion_C2 (a : QueuedAction) (h0 : a.retryCount = 0)
    (h3 : a.maxRetries = 3) :
    (processQueue true (fun _ => false) ⟨[a], a.id + 1, a.timestamp + 1, 1⟩).1.db =
      [{ a with retryCount := 1 }] ∧
    (processQueue true (fun _ => false)
        ⟨[{ a with retryCount := 1 }], a.id + 1, a.timestamp + 1, 1⟩).1.db =
      [{ a with retryCount := 2 }] ∧
    (processQueue true (fun _ => false)
        ⟨[{ a with retryCount := 2 }], a.id + 1, a.timestamp + 1, 1⟩).1.db = [] ∧
    (processQueue true (fun _ => false)
        ⟨[{ a with retryCount := 2 }], a.id + 1, a.timestamp + 1, 1⟩).2.2 =
      [DrainEv.droppedMax { a with retryCount := 2 }] ∧
    (processQueue true (fun _ => false) ⟨[], a.id + 1, a.timestamp + 1, 0⟩).2.1 = [] := by
  have k1 := processQueue_single_keep a (a.id + 1) (a.timestamp + 1) 1
    (by rw [h0, h3]; omega)
  have k2 := processQueue_single_keep { a with retryCount := 1 } (a.id + 1)
    (a.timestamp + 1) 1 (by simp [h3])
  have k3 := processQueue_single_drop { a with retryCount := 2 } (a.id + 1)
    (a.timestamp + 1) 1 (by simp [h3])
  refine ⟨?_, ?_, ?_, ?_, rfl⟩
  · rw [k1, h0]
  · rw [k2]
  · rw [k3]
  · rw [k3]

/-- Witness for C2 at a concrete screenshot-upload action. -/
theorem retry_exhaustion_C2_witness :
    (⟨7, ActionType.screenshot_upload,
        ActionData.screenshot ⟨"img", 1, 4, true, none, none⟩, 0, 0, 3⟩ : QueuedAction).retryCount = 0 ∧
    (⟨7, ActionType.screenshot_upload,
        ActionData.screenshot ⟨"img", 1, 4, true, none, none⟩, 0, 0, 3⟩ : QueuedAction).maxRetries = 3 ∧
    (processQueue true (fun _ => false)
        ⟨[⟨7, ActionType.screenshot_upload,
            ActionData.screenshot ⟨"img", 1, 4, true, none, none⟩, 0, 2, 3⟩], 8, 1, 1⟩).1.db = [] :=
  ⟨rfl, rfl,
    (retry_exhaustion_C2
      ⟨7, ActionType.screenshot_upload,
        ActionData.screenshot ⟨"img", 1, 4, true, none, none⟩, 0, 0, 3⟩ rfl rfl).2.2.1⟩

/-- C10: a drain triggered while the provider is offline returns at
the guard `if (!isOnline) return`: the store (hence every retry
count), the displayed queue size, and the whole provider state are
unchanged, and no stored action is attempted remotely. -/
theorem drain_offline_frame_C10 (apply : QueuedAction → Bool) (s : QState) :
    (processQueue false apply s).1.db = s.db ∧
    (processQueue false apply s).1.queueSize = s.queueSize ∧
    (processQueue false apply s).1 = s ∧
    (processQueue false apply s).2.1 = [] ∧
    (processQueue false apply s).2.2 = [] :=
  ⟨rfl, rfl, rfl, rfl, rfl⟩

/-- C5 counterexample: the claim says a failure to persist the new
action is reported to the caller of `enqueue`. In the source,
`addToQueue` wraps the Dexie write in try/catch, only calls
`console.error`, and its `Promise<void>` resolves normally, so at this
concrete input the caller observes a normally resolved call while the
action was dropped: nothing is reported. -/
theorem enqueue_silent_failure_counterexample_C5 :
    (addToQueue false ActionType.screenshot_upload
        (ActionData.screenshot ⟨"img", 1, 4, true, none, none⟩) 3 initQ).2.resolved = true ∧
    (addToQueue false ActionType.screenshot_upload
        (ActionData.screenshot ⟨"img", 1, 4, true, none, none⟩) 3 initQ).1.db = [] := by
  decide

/-- C5 amended: when persisting the new QueuedAction fails,
`addToQueue` catches the error, logs it to the console, leaves the
store unchanged and resolves normally, so the caller is not notified;
when the store works, the action is persisted with `retryCount = 0`. -/
theorem enqueue_failure_logged_C5 (ty : ActionType) (d : ActionData) (mr : Nat)
    (s : QState) :
    (addToQueue false ty d mr s).1 = s ∧
    (addToQueue false ty d mr s).2 = ⟨true, true⟩ ∧
    (addToQueue true ty d mr s).1.db = s.db ++ [⟨s.nextId, ty, d, s.clock, 0, mr⟩] :=
  ⟨rfl, rfl, rfl⟩

/-- A fixed queued screenshot action used in concrete scenarios. -/
def sampleShot : QueuedAction :=
  ⟨1, ActionType.screenshot_upload,
    ActionData.screenshot ⟨"img", 1, 4, true, none, none⟩, 0, 0, 3⟩

/-- Interleaved execution of two `processQueue` invocations in which
the second is triggered while the first is suspended at its awaited
snapshot read (both invocations pass the online guard and take their
snapshots before either loop runs; every `await` in the source is such
a suspension point).  Each invocation then runs its loop over its own
snapshot, calling `processQueuedAction` for every snapshot element.
The second component lists all remote application attempts made by the
pair, in order. -/
def twoDrainsInterleaved (apply : QueuedAction → Bool) (s : QState) :
    QState × List QueuedAction :=
  let snap1 := orderByTimestamp s.db
  let snap2 := orderByTimestamp s.db
  let db1 := drainLoop apply snap1 s.db
  let db2 := drainLoop apply snap2 db1
  (⟨db2, s.nextId, s.clock, db2.length⟩, snap1 ++ snap2)

/-- C4 counterexample: the claim says a drain triggered while another
drain is in progress is skipped, which would make the attempts of the
interleaved pair equal to the first snapshot alone.  With one stored
action and a succeeding remote, the pair attempts the action twice:
the second invocation is not skipped (the source has no in-progress
flag; its only early return is the offline guard). -/
theorem drain_reentrancy_counterexample_C4 :
    (twoDrainsInterleaved (fun _ => true) ⟨[sampleShot], 2, 1, 1⟩).2 ≠
      orderByTimestamp [sampleShot] ∧
    (twoDrainsInterleaved (fun _ => true) ⟨[sampleShot], 2, 1, 1⟩).2 =
      [sampleShot, sampleShot] := by
  decide

/-- C4 amended: `processQueue` skips a triggered drain only when
offline; it has no re-entrancy guard, so a drain triggered while
another is in progress also attempts every element of its own
snapshot, and the interleaved pair attempts the snapshot twice. -/
theorem drain_reentrancy_C4 (apply : QueuedAction → Bool) (s : QState) :
    (processQueue false apply s).2.1 = [] ∧
    (processQueue true apply s).2.1 = orderByTimestamp s.db ∧
    (twoDrainsInterleaved apply s).2 = orderByTimestamp s.db ++ orderByTimestamp s.db :=
  ⟨rfl, rfl, rfl⟩

/-- Employee identity as held by the Dashboard (only the id matters
for the modelled control flow; `employee.id` is also used as a JS
truthiness test, which fails for 0). -/
structure Employee where
  id : Nat
deriving DecidableEq, Repr

/-- A project row as loaded by `getProjects`. -/
structure Project where
  id : Nat
deriving DecidableEq, Repr

/-- A task row as loaded by `getTasks`. -/
structure Task where
  id : Nat
  project_id : Nat
deriving DecidableEq, Repr

/-- A time entry (the Session of the spec) as returned by the remote. -/
structure TimeEntry where
  id : Nat
  employee_id : Nat
  task_id : Nat
  is_active : Bool
deriving DecidableEq, Repr

/-- Result of the `system:get-network-info` IPC call, which resolves
with a success flag instead of throwing. -/
structure NetworkInfo where
  success : Bool
  ipAddress : String
  macAddress : String
deriving DecidableEq, Repr

deriving instance DecidableEq for Except

/-- Outcomes of the remote reads awaited by `loadInitialData`:
`getProjects()`, `getTimeEntries(employee.id, true)`, `getTasks()`.
Each rejected promise is an `error`. -/
structure RemoteInit where
  projectsRes : Except Unit (List Project)
  timeEntriesRes : Except Unit (List TimeEntry)
  tasksRes : Except Unit (List Task)
deriving DecidableEq, Repr

/-- Dashboard state after `loadInitialData` finished: the React states
it may set, whether `startScreenshotSchedule` was invoked (and with
which interval), and whether `createTimeEntry` was called (the source
of `loadInitialData` contains no such call). -/
structure DashInit where
  currentTimeEntry : Option TimeEntry
  isTracking : Bool
  selectedProject : Option Project
  selectedTask : Option Task
  error : String
  scheduleStarted : Option Nat
  createTimeEntryCalled : Bool
deriving DecidableEq, Repr

/-- The error message set by the catch block of `loadInitialData`. -/
def loadFailMsg : String := "Failed to load data. Please check your connection."

/-- Model of `loadInitialData` from Dashboard.tsx.  It resets the
timer state, loads projects, and when an employee with a truthy id is
present queries the remote for time entries and looks for an active
one.  If an active entry exists it is adopted (tracking state set,
task and project resolved via `getTasks`); if none exists, the code
calls `startScreenshotSchedule()` in that `else` branch (under the
comment saying to start the schedule if tracking).  Any rejected
remote call lands in the catch block, which only sets the error
message. -/
def loadInitialData (employee : Option Employee) (screenshotInterval : Nat)
    (r : RemoteInit) : DashInit :=
  match r.projectsRes with
  | .error _ => ⟨none, false, none, none, loadFailMsg, none, false⟩
  | .ok projectsData =>
    match employee with
    | none => ⟨none, false, none, none, "", none, false⟩
    | some emp =>
      if emp.id = 0 then ⟨none, false, none, none, "", none, false⟩
      else
        match r.timeEntriesRes with
        | .error _ => ⟨none, false, none, none, loadFailMsg, none, false⟩
        | .ok timeEntries =>
          match timeEntries.find? (fun e => e.is_active) with
          | some activeEntry =>
            match r.tasksRes with
            | .error _ => ⟨some activeEntry, true, none, none, loadFailMsg, none, false⟩
            | .ok allTasks =>
              match allTasks.find? (fun t => t.id = activeEntry.task_id) with
              | some task =>
                ⟨some activeEntry, true,
                  projectsData.find? (fun p => p.id = task.project_id), some task,
                  "", none, false⟩
              | none => ⟨some activeEntry, true, none, none, "", none, false⟩
          | none =>
            ⟨none, false, none, none, "", some screenshotInterval, false⟩

/-- Outcome of one `startTracking` invocation. -/
structure StartOutcome where
  error : String
  isTracking : Bool
  currentTimeEntry : Option TimeEntry
  createTimeEntryCalled : Bool
  scheduleStarted : Option Nat
  enqueued : List QueuedAction
deriving DecidableEq, Repr

/-- Model of `startTracking` from Dashboard.tsx.  Missing employee,
project or task is rejected synchronously with a validation message
before any remote call; otherwise `createTimeEntry` is awaited and a
rejection is caught, setting a retry message.  Nothing is ever added
to the offline queue on this path. -/
def startTracking (employee : Option Employee) (selectedProject : Option Project)
    (selectedTask : Option Task) (createRes : Except Unit TimeEntry)
    (screenshotInterval : Nat) : StartOutcome :=
  match employee with
  | none => ⟨"Authentication error. Please logout and login again.",
      false, none, false, none, []⟩
  | some _ =>
    match selectedProject with
    | none => ⟨"Please select a project before starting", false, none, false, none, []⟩
    | some _ =>
      match selectedTask with
      | none => ⟨"Please select a task before starting", false, none, false, none, []⟩
      | some _ =>
        match createRes with
        | .error _ => ⟨"Failed to start time tracking. Please try again.",
            false, none, true, none, []⟩
        | .ok te => ⟨"", true, some te, true, some screenshotInterval, []⟩

/-- State acted on by `stopTracking`. -/
structure StopState where
  currentTimeEntry : Option TimeEntry
  isTracking : Bool
  error : String
deriving DecidableEq, Repr

/-- Model of `stopTracking` from Dashboard.tsx.  With no current time
entry it returns immediately.  Otherwise `stopTimeEntry` is awaited:
on success the entry is cleared, tracking stops and the screenshot
schedule is stopped (second component); a rejection is caught and only
sets the error message, leaving the tracking state. -/
def stopTracking (st : StopState) (stopRes : Except Unit Unit) : StopState × Bool :=
  match st.currentTimeEntry with
  | none => (st, false)
  | some _ =>
    match stopRes with
    | .ok _ => (⟨none, false, ""⟩, true)
    | .error _ =>
      (⟨st.currentTimeEntry, st.isTracking,
        "Failed to stop time tracking. Please try again."⟩, false)

/-- Model of `handleLogout` from Dashboard.tsx: if tracking, await
`stopTracking` (which never rejects, its body being wrapped in
try/catch), then always call `logout()`.  Components: state after the
optionalstop, whether the schedule was stopped, and whether `logout`
was reached. -/
def handleLogout (st : StopState) (stopRes : Except Unit Unit) :
    StopState × Bool × Bool :=
  if st.isTracking then
    ((stopTracking st stopRes).1, (stopTracking st stopRes).2, true)
  else
    (st, false, true)

/-- Result of the `screenshot:capture` IPC call as observed by the
renderer: the underlying invoke either rejects (`threw`) or resolves
with a success flag, optional base64 data and the permission flag. -/
inductive CaptureResult where
  | threw
  | ret (success : Bool) (data : Option String) (permission : Bool)
deriving DecidableEq, Repr

/-- A live `setInterval` timer in the Electron main process. -/
structure TimerRec where
  id : Nat
  intervalMs : Nat
deriving DecidableEq, Repr

/-- Scheduling state of the Electron main process: the installed and
not yet cleared interval timers, a fresh-handle counter, and the
`screenshotInterval` member holding the handle of the current schedule
(null when none). -/
structure SchedState where
  liveTimers : List TimerRec
  nextTimerId : Nat
  screenshotInterval : Option Nat
deriving DecidableEq, Repr

/-- Model of the `screenshot:start-schedule` IPC handler: if a handle
is stored, `clearInterval` it; install one new timer with period
`intervalMinutes * 60 * 1000` ms; store its handle; return success. -/
def startSchedule (intervalMinutes : Nat) (st : SchedState) : SchedState × Bool :=
  let cleared := match st.screenshotInterval with
    | some h => st.liveTimers.filter (fun t => t.id ≠ h)
    | none => st.liveTimers
  (⟨cleared ++ [⟨st.nextTimerId, intervalMinutes * 60 * 1000⟩],
    st.nextTimerId + 1, some st.nextTimerId⟩, true)

/-- Model of the `screenshot:stop-schedule` IPC handler: if a handle
is stored, `clearInterval` it and null the handle; otherwise do
nothing.  Returns success in both cases. -/
def stopSchedule (st : SchedState) : SchedState × Bool :=
  match st.screenshotInterval with
  | some h => (⟨st.liveTimers.filter (fun t => t.id ≠ h), st.nextTimerId, none⟩, true)
  | none => (st, true)

/-- Scheduler well-formedness: the live timers are exactly the one
named by the stored handle (or none), and any stored handle is below
the fresh-handle counter. -/
def WFsched (st : SchedState) : Prop :=
  match st.screenshotInterval with
  | none => st.liveTimers = []
  | some h => h < st.nextTimerId ∧ st.liveTimers.map TimerRec.id = [h]

/-- Model of the `screenshot:trigger` listener installed by
`setupScreenshotListener` in Dashboard.tsx.  The refs supply current
tracking state, entry and employee; all three must be truthy.  Capture
is awaited; on resolved success with nonempty data the upload is
attempted, and an upload rejection is caught and the same image and
metadata are handed to `addToQueue` with `maxRetries: 3` (ip and mac
re-resolved; the same network oracle models both calls).  A capture
rejection leaves `screenshotResult` null, so the catch enqueues
nothing.  The listener touches neither the scheduler state (returned
unchanged) nor the tracking state, and its body never throws (inner
try/catch).  Third component: whether the immediate upload
succeeded. -/
def onScreenshotTrigger (isTracking : Bool) (currentEntry : Option TimeEntry)
    (employee : Option Employee) (cap : CaptureResult) (uploadRes : Except Unit Unit)
    (net : NetworkInfo) (storeOk : Bool) (sched : SchedState) (s : QState) :
    QState × SchedState × Bool :=
  match isTracking, currentEntry, employee with
  | true, some e, some m =>
    (match cap with
     | .threw => (s, sched, false)
     | .ret success dat perm =>
       match success, dat with
       | true, some img =>
         if img = "" then (s, sched, false)
         else
           match uploadRes with
           | .ok _ => (s, sched, true)
           | .error _ =>
             ((addToQueue storeOk ActionType.screenshot_upload
                 (ActionData.screenshot ⟨img, m.id, e.id, perm,
                   if net.success then some net.ipAddress else none,
                   if net.success then some net.macAddress else none⟩) 3 s).1,
              sched, false)
       | _, _ => (s, sched, false))
  | _, _, _ => (s, sched, false)

/-- C3: evidence of the startup-reconciliation code bug.  On a startup
where the remote reports active entry 42 for employee 1, local state
is set directly to Active with that recovered entry and
`createTimeEntry` is never called — but the Capture Scheduler is NOT
started.  On a startup where the remote reports no active entry, the
state stays Idle — but the Capture Scheduler IS started (interval 5).
The `startScreenshotSchedule()` call sits in the no-active-entry
branch of `loadInitialData`, directly under a comment about starting
the schedule if tracking. -/
theorem startup_reconciliation_C3 :
    (loadInitialData (some ⟨1⟩) 5 ⟨.ok [], .ok [⟨42, 1, 7, true⟩], .ok []⟩).isTracking = true ∧
    (loadInitialData (some ⟨1⟩) 5 ⟨.ok [], .ok [⟨42, 1, 7, true⟩], .ok []⟩).currentTimeEntry =
      some ⟨42, 1, 7, true⟩ ∧
    (loadInitialData (some ⟨1⟩) 5 ⟨.ok [], .ok [⟨42, 1, 7, true⟩], .ok []⟩).createTimeEntryCalled =
      false ∧
    (loadInitialData (some ⟨1⟩) 5 ⟨.ok [], .ok [⟨42, 1, 7, true⟩], .ok []⟩).scheduleStarted =
      none ∧
    (loadInitialData (some ⟨1⟩) 5 ⟨.ok [], .ok [], .ok []⟩).isTracking = false ∧
    (loadInitialData (some ⟨1⟩) 5 ⟨.ok [], .ok [], .ok []⟩).scheduleStarted = some 5 := by
  decide

/-- C6: a session-start attempt with a missing employee, project or
task fails with a validation error, makes no remote call, stays Idle
and enqueues nothing; with all three resolved and the remote create
call failing, the state stays Idle, a retryable error message is
surfaced, the scheduler is not started and nothing is enqueued to the
Durable Action Queue. -/
theorem start_validation_C6 (employee : Option Employee) (proj : Option Project)
    (task : Option Task) (createRes : Except Unit TimeEntry) (iv : Nat) :
    (employee = none ∨ proj = none ∨ task = none →
      (startTracking employee proj task createRes iv).error ≠ "" ∧
      (startTracking employee proj task createRes iv).createTimeEntryCalled = false ∧
      (startTracking employee proj task createRes iv).isTracking = false ∧
      (startTracking employee proj task createRes iv).currentTimeEntry = none ∧
      (startTracking employee proj task createRes iv).enqueued = []) ∧
    (employee ≠ none → proj ≠ none → task ≠ none → createRes = .error () →
      (startTracking employee proj task createRes iv).error =
        "Failed to start time tracking. Please try again." ∧
      (startTracking employee proj task createRes iv).isTracking = false ∧
      (startTracking employee proj task createRes iv).currentTimeEntry = none ∧
      (startTracking employee proj task createRes iv).scheduleStarted = none ∧
      (startTracking employee proj task createRes iv).enqueued = []) := by
  constructor
  · intro h
    rcases employee with - | e
    · exact ⟨by simp [startTracking], rfl, rfl, rfl, rfl⟩
    · rcases proj with - | p
      · exact ⟨by simp [startTracking], rfl, rfl, rfl, rfl⟩
      · rcases task with - | t
        · exact ⟨by simp [startTracking], rfl, rfl, rfl, rfl⟩
        · rcases h with h | h | h <;> exact absurd h (by simp)
  · intro he hp ht hc
    rcases employee with - | e
    · exact absurd rfl he
    rcases proj with - | p
    · exact absurd rfl hp
    rcases task with - | t
    · exact absurd rfl ht
    subst hc
    exact ⟨rfl, rfl, rfl, rfl, rfl⟩

/-- Witness for C6: a missing task is rejected without a remote call,
and a failing remote create leaves the state Idle with the retry
message and an empty enqueue list. -/
theorem start_validation_C6_witness :
    ((startTracking (some ⟨1⟩) (some ⟨2⟩) none (.ok ⟨9, 1, 3, true⟩) 5).error ≠ "" ∧
     (startTracking (some ⟨1⟩) (some ⟨2⟩) none (.ok ⟨9, 1, 3, true⟩) 5).createTimeEntryCalled = false ∧
     (startTracking (some ⟨1⟩) (some ⟨2⟩) none (.ok ⟨9, 1, 3, true⟩) 5).isTracking = false ∧
     (startTracking (some ⟨1⟩) (some ⟨2⟩) none (.ok ⟨9, 1, 3, true⟩) 5).currentTimeEntry = none ∧
     (startTracking (some ⟨1⟩) (some ⟨2⟩) none (.ok ⟨9, 1, 3, true⟩) 5).enqueued = []) ∧
    ((startTracking (some ⟨1⟩) (some ⟨2⟩) (some ⟨3, 2⟩) (.error ()) 5).error =
        "Failed to start time tracking. Please try again." ∧
     (startTracking (some ⟨1⟩) (some ⟨2⟩) (some ⟨3, 2⟩) (.error ()) 5).isTracking = false ∧
     (startTracking (some ⟨1⟩) (some ⟨2⟩) (some ⟨3, 2⟩) (.error ()) 5).currentTimeEntry = none ∧
     (startTracking (some ⟨1⟩) (some ⟨2⟩) (some ⟨3, 2⟩) (.error ()) 5).scheduleStarted = none ∧
     (startTracking (some ⟨1⟩) (some ⟨2⟩) (some ⟨3, 2⟩) (.error ()) 5).enqueued = []) :=
  ⟨(start_validation_C6 (some ⟨1⟩) (some ⟨2⟩) none (.ok ⟨9, 1, 3, true⟩) 5).1
      (Or.inr (Or.inr rfl)),
    (start_validation_C6 (some ⟨1⟩) (some ⟨2⟩) (some ⟨3, 2⟩) (.error ()) 5).2
      (Option.some_ne_none _) (Option.some_ne_none _) (Option.some_ne_none _) rfl⟩

/-- C7: on a capture tick fired while tracking with a current entry
and employee: if the capture succeeds with image data but the
immediate upload fails, the same image data and metadata are persisted
as a `screenshot_upload` QueuedAction with `retryCount = 0` (and
`maxRetries = 3`); if the capture step itself fails — a rejected
capture call or an unsuccessful capture result — nothing is uploaded
or queued for that tick; in every case the listener leaves the
scheduler state untouched, so the schedule continues. -/
theorem capture_tick_C7 (entry : TimeEntry) (emp : Employee) (cap : CaptureResult)
    (uploadRes : Except Unit Unit) (net : NetworkInfo) (sched : SchedState)
    (s : QState) (img : String) (perm : Bool) :
    (cap = .ret true (some img) perm → img ≠ "" → uploadRes = .error () →
      (onScreenshotTrigger true (some entry) (some emp) cap uploadRes net true sched s).1.db =
        s.db ++ [⟨s.nextId, ActionType.screenshot_upload,
          ActionData.screenshot ⟨img, emp.id, entry.id, perm,
            if net.success then some net.ipAddress else none,
            if net.success then some net.macAddress else none⟩, s.clock, 0, 3⟩] ∧
      (onScreenshotTrigger true (some entry) (some emp) cap uploadRes net true sched s).2.2 =
        false) ∧
    (cap = .threw →
      onScreenshotTrigger true (some entry) (some emp) cap uploadRes net true sched s =
        (s, sched, false)) ∧
    (∀ dat perm2, cap = .ret false dat perm2 →
      onScreenshotTrigger true (some entry) (some emp) cap uploadRes net true sched s =
        (s, sched, false)) ∧
    (onScreenshotTrigger true (some entry) (some emp) cap uploadRes net true sched s).2.1 =
      sched := by
  refine ⟨?_, ?_, ?_, ?_⟩
  · intro hc himg hup
    subst hc
    subst hup
    constructor
    · simp [onScreenshotTrigger, himg, addToQueue]
    · simp [onScreenshotTrigger, himg]
  · intro hc
    subst hc
    rfl
  · intro dat perm2 hc
    subst hc
    cases dat <;> rfl
  · cases cap with
    | threw => rfl
    | ret success dat perm2 =>
      cases success with
      | false => cases dat <;> rfl
      | true =>
        cases dat with
        | none => rfl
        | some im =>
          by_cases him : im = ""
          · simp [onScreenshotTrigger, him]
          · cases uploadRes with
            | ok u => simp [onScreenshotTrigger, him]
            | error u => simp [onScreenshotTrigger, him]

/-- Witness for C7: a concrete successful capture whose upload fails
is queued with retryCount 0 and the full metadata. -/
theorem capture_tick_C7_witness :
    (onScreenshotTrigger true (some ⟨42, 1, 7, true⟩) (some ⟨1⟩)
        (CaptureResult.ret true (some "img") true) (Except.error ())
        ⟨true, "10.0.0.5", "aa:bb"⟩ true ⟨[], 7, some 6⟩ initQ).1.db =
      initQ.db ++ [⟨initQ.nextId, ActionType.screenshot_upload,
        ActionData.screenshot ⟨"img", 1, 42, true, some "10.0.0.5", some "aa:bb"⟩,
        initQ.clock, 0, 3⟩] ∧
    (onScreenshotTrigger true (some ⟨42, 1, 7, true⟩) (some ⟨1⟩)
        (CaptureResult.ret true (some "img") true) (Except.error ())
        ⟨true, "10.0.0.5", "aa:bb"⟩ true ⟨[], 7, some 6⟩ initQ).2.2 = false :=
  (capture_tick_C7 ⟨42, 1, 7, true⟩ ⟨1⟩ (CaptureResult.ret true (some "img") true)
    (Except.error ()) ⟨true, "10.0.0.5", "aa:bb"⟩ ⟨[], 7, some 6⟩ initQ "img" true).1
    rfl (by decide) rfl

/-- C8: stopping the schedule is idempotent — stopping with no
schedule running is a no-op that still reports success, and stopping
twice in a row equals stopping once — while starting the schedule
over a running one clears the previous timer and installs exactly one
new timer with the requested period (reschedule, no stacking). -/
theorem scheduler_idempotent_C8 (st : SchedState) (h : WFsched st) (i : Nat) :
    (st.screenshotInterval = none → stopSchedule st = (st, true)) ∧
    (stopSchedule (stopSchedule st).1).1 = (stopSchedule st).1 ∧
    (stopSchedule st).2 = true ∧
    (startSchedule i st).1.liveTimers = [⟨st.nextTimerId, i * 60 * 1000⟩] ∧
    (∀ hh, st.screenshotInterval = some hh →
      ∀ t ∈ (startSchedule i st).1.liveTimers, t.id ≠ hh) ∧
    WFsched (startSchedule i st).1 ∧ WFsched (stopSchedule st).1 := by
  obtain ⟨lt, n, si⟩ := st
  rcases si with - | hh
  · simp only [WFsched] at h
    subst h
    refine ⟨fun _ => rfl, rfl, rfl, rfl, ?_, ?_, ?_⟩
    · intro hh hcontra
      exact absurd hcontra (by simp)
    · exact ⟨Nat.lt_succ_self n, rfl⟩
    · rfl
  · simp only [WFsched] at h
    obtain ⟨hlt, hmap⟩ := h
    cases lt with
    | nil => exact absurd hmap (by simp)
    | cons t rest =>
      simp only [List.map_cons, List.cons.injEq] at hmap
      obtain ⟨ht, hrest⟩ := hmap
      rw [List.map_eq_nil_iff] at hrest
      subst hrest
      refine ⟨?_, ?_, rfl, ?_, ?_, ?_, ?_⟩
      · intro hcontra
        exact absurd hcontra (by simp)
      · simp [stopSchedule, ht]
      · simp [startSchedule, ht]
      · intro hh2 he x hx
        obtain rfl : hh = hh2 := by injection he
        simp [startSchedule, ht] at hx
        subst hx
        show n ≠ hh
        omega
      · refine ⟨Nat.lt_succ_self n, ?_⟩
        simp [startSchedule, ht]
      · show WFsched ⟨List.filter (fun x => x.id ≠ hh) [t], n, none⟩
        simp only [WFsched]
        simp [ht]

/-- Witness for C8 at a concrete running schedule. -/
theorem scheduler_idempotent_C8_witness :
    WFsched ⟨[⟨0, 300000⟩], 1, some 0⟩ ∧
    (stopSchedule (stopSchedule ⟨[⟨0, 300000⟩], 1, some 0⟩).1).1 =
      (stopSchedule ⟨[⟨0, 300000⟩], 1, some 0⟩).1 ∧
    (startSchedule 5 ⟨[⟨0, 300000⟩], 1, some 0⟩).1.liveTimers = [⟨1, 5 * 60 * 1000⟩] :=
  ⟨⟨Nat.lt_succ_self 0, rfl⟩,
    (scheduler_idempotent_C8 ⟨[⟨0, 300000⟩], 1, some 0⟩ ⟨Nat.lt_succ_self 0, rfl⟩ 5).2.1,
    (scheduler_idempotent_C8 ⟨[⟨0, 300000⟩], 1, some 0⟩ ⟨Nat.lt_succ_self 0, rfl⟩ 5).2.2.2.1⟩

/-- C9: with a current time entry, a successful remote stop moves the
machine to Idle (entry cleared, tracking off, schedule stopped); the
logout path always reaches `logout()` — `stopTracking` never rejects —
and when the remote stop fails during logout the error is surfaced as
the retry message while `logout()` is still reached. -/
theorem stop_and_logout_C9 (st : StopState) (stopRes : Except Unit Unit)
    (te : TimeEntry) :
    (st.currentTimeEntry = some te → stopRes = .ok () →
      (stopTracking st stopRes).1 = ⟨none, false, ""⟩ ∧
      (stopTracking st stopRes).2 = true) ∧
    (handleLogout st stopRes).2.2 = true ∧
    (st.currentTimeEntry = some te → st.isTracking = true → stopRes = .error () →
      (handleLogout st stopRes).1.error =
        "Failed to stop time tracking. Please try again." ∧
      (handleLogout st stopRes).2.2 = true) := by
  refine ⟨?_, ?_, ?_⟩
  · intro h1 h2
    subst h2
    constructor <;> simp [stopTracking, h1]
  · unfold handleLogout
    split <;> rfl
  · intro h1 htr h3
    subst h3
    constructor
    · simp [handleLogout, htr, stopTracking, h1]
    · unfold handleLogout
      split <;> rfl

/-- Witness for C9: a successful stop at entry 42 reaches Idle, and a
failing stop during logout surfaces the message while logout is still
called. -/
theorem stop_and_logout_C9_witness :
    ((stopTracking ⟨some ⟨42, 1, 7, true⟩, true, ""⟩ (.ok ())).1 = ⟨none, false, ""⟩ ∧
     (stopTracking ⟨some ⟨42, 1, 7, true⟩, true, ""⟩ (.ok ())).2 = true) ∧
    ((handleLogout ⟨some ⟨42, 1, 7, true⟩, true, ""⟩ (.error ())).1.error =
        "Failed to stop time tracking. Please try again." ∧
     (handleLogout ⟨some ⟨42, 1, 7, true⟩, true, ""⟩ (.error ())).2.2 = true) :=
  ⟨(stop_and_logout_C9 ⟨some ⟨42, 1, 7, true⟩, true, ""⟩ (.ok ()) ⟨42, 1, 7, true⟩).1
      rfl rfl,
    (stop_and_logout_C9 ⟨some ⟨42, 1, 7, true⟩, true, ""⟩ (.error ()) ⟨42, 1, 7, true⟩).2.2
      rfl rfl rfl⟩

end Insightful
